import Mathlib

/-!
Verification of the TerraMind microservice (src/terramind-service/app.py).

The Python service is embedded shallowly:
* JSON values become the inductive type `JValue`; Python dict `.get` and
  truthiness become `JValue.getField` / `JValue.isTruthy`.
* Python floats become `ℚ` (exact arithmetic).  The source compares
  `sqrt(dlat^2 + dlng^2) * 111 <= radius`; the executable embedding
  `withinRadiusKm` squares both sides, and the equivalence with the
  source's square-root formulation over `ℝ` is proved below
  (`withinRadiusKm_iff_sqrt`).
* Randomness (`np.random.uniform`, `np.random.choice`) is modelled by an
  explicit stream of draws `Gen`: `unif n` is the n-th unit-interval draw
  (numpy's `uniform(low, high)` samples the half-open `[low, high)`, so a
  valid stream satisfies `0 ≤ unif n < 1`), and `pick n` selects among the
  options of the n-th `choice` call.
* Exceptions become `Except String`; the Flask handler returns a pair of
  an HTTP status code and a JSON body.
* `datetime.now()` is an input (`ts`), and the real-inference path
  `run_terramind_analysis` (a thin wrapper around the external torch /
  transformers model, not translatable) is a parameter `rr` of the
  analysis entry point.
-/

namespace Bunker

/-- JSON-like values: the request and response bodies of the service. -/
inductive JValue where
  | null : JValue
  | bool : Bool → JValue
  | num : ℚ → JValue
  | str : String → JValue
  | arr : List JValue → JValue
  | obj : List (String × JValue) → JValue

/-- Field lookup on a JSON object (`None` on non-objects / missing keys). -/
def JValue.getField : JValue → String → Option JValue
  | .obj fields, k => List.lookup k fields
  | _, _ => none

/-- Path lookup: repeated `getField`. -/
def JValue.getPath : JValue → List String → Option JValue
  | v, [] => some v
  | v, k :: ks =>
    match v.getField k with
    | some w => JValue.getPath w ks
    | none => none

/-- Python truthiness of a JSON value (`if not data`). -/
def JValue.isTruthy : JValue → Bool
  | .null => false
  | .bool b => b
  | .num q => decide (q ≠ 0)
  | .str s => decide (s ≠ "")
  | .arr l => !l.isEmpty
  | .obj l => !l.isEmpty

/-- A stream of random draws: `unif n` is the n-th unit-interval draw and
`pick n` indexes the options of the n-th `np.random.choice` call. -/
structure Gen where
  unif : ℕ → ℚ
  pick : ℕ → ℕ

/-- Validity of a draw stream: numpy's `uniform(low, high)` samples the
half-open interval `[low, high)`, so unit draws satisfy `0 ≤ u < 1`. -/
def Gen.Valid (g : Gen) : Prop := ∀ n, 0 ≤ g.unif n ∧ g.unif n < 1

/-- Skip the first `k` draws (used to give each generator disjoint draws). -/
def Gen.shift (g : Gen) (k : ℕ) : Gen := ⟨fun n => g.unif (k + n), fun n => g.pick (k + n)⟩

/-- Model of `np.random.uniform(low, high)`, taking the n-th unit draw. -/
def uniform (g : Gen) (n : ℕ) (low high : ℚ) : ℚ := low + g.unif n * (high - low)

/-- Model of `np.random.choice(opts)`, taking the n-th pick. -/
def choice (g : Gen) (n : ℕ) (opts : List String) : String :=
  opts.getD (g.pick n % opts.length) ""

/-- Model of Python `round(x, p)`. -/
def roundTo (p : ℕ) (x : ℚ) : ℚ := (⌊x * 10 ^ p + 1 / 2⌋ : ℚ) / 10 ^ p

/-- Abstract model of Python numeric string formatting (f-strings): renders
the rational exactly.  No claim inspects the rendered text. -/
def fmtQ (x : ℚ) : String := toString x.num ++ "/" ++ toString x.den

/-- Substring test, modelling Python's `pat in s`. -/
def strContains (s pat : String) : Bool := decide ((s.splitOn pat).length ≠ 1)

/-- The hardcoded urban centers `(lat, lng, radius_km)` of `is_urban_area`. -/
def urban_centers : List (ℚ × ℚ × ℚ) :=
  [(13.0827, 80.2707, 50),  -- Chennai
   (12.9716, 77.5946, 50),  -- Bangalore
   (19.0760, 72.8777, 50),  -- Mumbai
   (28.7041, 77.1025, 50)]  -- Delhi

/-- The hardcoded coastal regions `(lat, lng, radius_km)` of `is_coastal_area`. -/
def coastal_regions : List (ℚ × ℚ × ℚ) :=
  [(13.0827, 80.2707, 30),  -- Chennai coast
   (19.0760, 72.8777, 20),  -- Mumbai coast
   (11.9416, 79.8083, 15)]  -- Pondicherry coast

/-- The source's test `((lat-clat)^2 + (lng-clng)^2)^0.5 * 111 <= radius`,
with both sides squared so that it is decidable over `ℚ`; the equivalence
with the square-root form over `ℝ` is `withinRadiusKm_iff_sqrt`. -/
def withinRadiusKm (lat lng clat clng radius : ℚ) : Bool :=
  decide (((lat - clat) ^ 2 + (lng - clng) ^ 2) * 111 ^ 2 ≤ radius ^ 2)

/-- `is_urban_area` from the source: within 50 km of one of four cities. -/
def is_urban_area (lat lng : ℚ) : Bool :=
  urban_centers.any fun c => withinRadiusKm lat lng c.1 c.2.1 c.2.2

/-- `is_coastal_area` from the source: within the radius of a coastal region. -/
def is_coastal_area (lat lng : ℚ) : Bool :=
  coastal_regions.any fun c => withinRadiusKm lat lng c.1 c.2.1 c.2.2

/-- `categorize_vegetation_health` from the source. -/
def categorize_vegetation_health (ndvi : ℚ) : String :=
  if ndvi > 0.7 then "excellent"
  else if ndvi > 0.5 then "good"
  else if ndvi > 0.3 then "moderate"
  else if ndvi > 0.1 then "poor"
  else "very_poor"

/-- `generate_vegetation_recommendations` from the source. -/
def generate_vegetation_recommendations (ndvi : ℚ) (analysis_type : JValue) : List String :=
  if ndvi < 0.3 then
    ["Consider soil health improvement programs",
     "Implement water conservation measures",
     "Monitor for pest and disease pressure"]
  else if ndvi < 0.6 then
    ["Maintain current management practices",
     "Monitor seasonal variations",
     "Consider precision agriculture techniques"]
  else
    ["Excellent vegetation health detected",
     "Continue current conservation practices",
     "Consider this area for biodiversity studies"]

/-- `generate_geospatial_insights` from the source. -/
def generate_geospatial_insights (query : String) (analysis_type : JValue) : List String :=
  if strContains query.toLower "fishing" then
    ["Coastal water quality analysis indicates safe fishing conditions",
     "Satellite data shows stable marine ecosystem health",
     "No significant pollution indicators detected in water bodies"]
  else if strContains query.toLower "water" then
    ["Multi-spectral analysis reveals water body health status",
     "NDWI indicators show adequate water availability",
     "No significant contamination detected in satellite imagery"]
  else if strContains query.toLower "development" then
    ["Land use change analysis shows development patterns",
     "Urban expansion rate within sustainable limits",
     "Environmental impact assessment suggests moderate pressure"]
  else
    ["Comprehensive satellite analysis completed",
     "Multi-temporal change detection reveals stable conditions",
     "Environmental health indicators within normal ranges"]

/-- The urban risk list built by `assess_environmental_risks`. -/
def urban_risks : JValue :=
  .arr [.obj [("type", .str "air_pollution"), ("level", .str "moderate"), ("confidence", .num 0.82)],
        .obj [("type", .str "urban_heat_island"), ("level", .str "high"), ("confidence", .num 0.78)],
        .obj [("type", .str "water_stress"), ("level", .str "moderate"), ("confidence", .num 0.75)]]

/-- The coastal risk list built by `assess_environmental_risks`. -/
def coastal_risks : JValue :=
  .arr [.obj [("type", .str "sea_level_rise"), ("level", .str "moderate"), ("confidence", .num 0.85)],
        .obj [("type", .str "coastal_erosion"), ("level", .str "low"), ("confidence", .num 0.72)],
        .obj [("type", .str "storm_surge"), ("level", .str "moderate"), ("confidence", .num 0.80)]]

/-- The rural risk list built by `assess_environmental_risks`. -/
def rural_risks : JValue :=
  .arr [.obj [("type", .str "drought_risk"), ("level", .str "low"), ("confidence", .num 0.88)],
        .obj [("type", .str "soil_degradation"), ("level", .str "moderate"), ("confidence", .num 0.75)],
        .obj [("type", .str "biodiversity_loss"), ("level", .str "low"), ("confidence", .num 0.82)]]

/-- `assess_environmental_risks` from the source (the three literal lists it
extends `risks` with are named `urban_risks` / `coastal_risks` /
`rural_risks` above). -/
def assess_environmental_risks (lat lng : ℚ) (analysis_type : JValue) : JValue :=
  if is_urban_area lat lng then urban_risks
  else if is_coastal_area lat lng then coastal_risks
  else rural_risks

/-- `simulate_land_use_classification` from the source: branch on
`is_urban_area` / `is_coastal_area`, fill the class percentages with
uniform draws. -/
def simulate_land_use_classification (lat lng : ℚ) (analysis_type : JValue) (g : Gen) : JValue :=
  if is_urban_area lat lng then
    .obj [("primary_class", .str "urban"),
          ("confidence", .num 0.87),
          ("classes", .obj
            [("urban", .num (roundTo 1 (uniform g 0 45 65))),
             ("vegetation", .num (roundTo 1 (uniform g 1 20 35))),
             ("water", .num (roundTo 1 (uniform g 2 5 15))),
             ("agriculture", .num (roundTo 1 (uniform g 3 5 15))),
             ("bare_soil", .num (roundTo 1 (uniform g 4 2 8)))]),
          ("change_indicators", .obj
            [("urban_expansion", .str "+2.3% annually"),
             ("vegetation_loss", .str "-1.8% annually")])]
  else if is_coastal_area lat lng then
    .obj [("primary_class", .str "coastal_mixed"),
          ("confidence", .num 0.82),
          ("classes", .obj
            [("water", .num (roundTo 1 (uniform g 0 35 55))),
             ("vegetation", .num (roundTo 1 (uniform g 1 25 40))),
             ("urban", .num (roundTo 1 (uniform g 2 15 25))),
             ("sand", .num (roundTo 1 (uniform g 3 5 15))),
             ("agriculture", .num (roundTo 1 (uniform g 4 3 10)))]),
          ("coastal_indicators", .obj
            [("erosion_rate", .str "0.5m/year"),
             ("water_quality", .str "moderate")])]
  else
    .obj [("primary_class", .str "agricultural"),
          ("confidence", .num 0.91),
          ("classes", .obj
            [("agriculture", .num (roundTo 1 (uniform g 0 50 70))),
             ("vegetation", .num (roundTo 1 (uniform g 1 20 35))),
             ("water", .num (roundTo 1 (uniform g 2 3 10))),
             ("urban", .num (roundTo 1 (uniform g 3 2 8))),
             ("bare_soil", .num (roundTo 1 (uniform g 4 5 15)))]),
          ("agricultural_indicators", .obj
            [("crop_health", .str "good"),
             ("irrigation_efficiency", .str "moderate")])]

/-- `simulate_vegetation_health_analysis` from the source.  `base_ndvi` is
`np.random.uniform(0.3, 0.8)`; `satellite_data` is in fact never read. -/
def simulate_vegetation_health_analysis (satellite_data : JValue) (analysis_type : JValue)
    (g : Gen) : JValue :=
  let base_ndvi := uniform g 0 0.3 0.8
  .obj [("ndvi_score", .num (roundTo 3 base_ndvi)),
        ("health_category", .str (categorize_vegetation_health base_ndvi)),
        ("stress_indicators", .obj
          [("drought_stress", .str (if base_ndvi > 0.6 then "low" else "moderate")),
           ("disease_pressure", .str (choice g 0 ["low", "moderate"])),
           ("nutrient_status", .str (choice g 1 ["adequate", "deficient"]))]),
        ("temporal_trends", .obj
          [("6_month_change", .str (fmtQ (uniform g 1 (-5) 10) ++ "%")),
           ("seasonal_pattern", .str "normal"),
           ("growth_trajectory", .str (choice g 2 ["stable", "improving", "declining"]))]),
        ("recommendations", .arr
          ((generate_vegetation_recommendations base_ndvi analysis_type).map .str))]

/-- `simulate_change_detection_analysis` from the source. -/
def simulate_change_detection_analysis (lat lng : ℚ) (g : Gen) : JValue :=
  .obj [("temporal_analysis", .obj
          [("analysis_period", .str "12 months"),
           ("significant_changes", .num (roundTo 1 (uniform g 0 5 25))),
           ("change_confidence", .num (roundTo 3 (uniform g 1 0.8 0.95)))]),
        ("land_cover_changes", .obj
          [("deforestation", .str (fmtQ (uniform g 2 0 3) ++ "%")),
           ("urban_expansion", .str (fmtQ (uniform g 3 1 8) ++ "%")),
           ("water_body_changes", .str (fmtQ (uniform g 4 (-2) 2) ++ "%")),
           ("agricultural_conversion", .str (fmtQ (uniform g 5 (-1) 5) ++ "%"))]),
        ("hotspots", .arr
          [.obj [("type", .str "urban_development"),
                 ("intensity", .str "high"),
                 ("area", .str (fmtQ (uniform g 6 50 200) ++ " hectares"))],
           .obj [("type", .str "vegetation_change"),
                 ("intensity", .str "moderate"),
                 ("area", .str (fmtQ (uniform g 7 100 500) ++ " hectares"))]])]

/-- `simulate_environmental_assessment` from the source. -/
def simulate_environmental_assessment (query : String) (analysis_type : JValue)
    (g : Gen) : JValue :=
  .obj [("environmental_score", .num (roundTo 1 (uniform g 0 6.5 9.2))),
        ("sustainability_indicators", .obj
          [("carbon_sequestration", .str (fmtQ (uniform g 1 50 150) ++ " kg CO2/ha/year")),
           ("biodiversity_index", .num (roundTo 2 (uniform g 2 0.6 0.9))),
           ("ecosystem_health", .str (choice g 0 ["excellent", "good", "moderate"]))]),
        ("human_impact_factors", .obj
          [("pollution_pressure", .str (choice g 1 ["low", "moderate", "high"])),
           ("development_pressure", .str (choice g 2 ["low", "moderate", "high"])),
           ("resource_exploitation", .str (choice g 3 ["sustainable", "moderate", "intensive"]))]),
        ("predictive_insights", .obj
          [("5_year_outlook", .str (choice g 4 ["stable", "improving", "declining"])),
           ("risk_factors", .arr [.str "climate_change", .str "urban_expansion", .str "water_stress"]),
           ("opportunities", .arr [.str "conservation", .str "sustainable_development", .str "restoration"])])]

/-- The request's `coordinates` dict: optional `lat` / `lng` entries. -/
structure Coordinates where
  lat? : Option ℚ
  lng? : Option ℚ

/-- Embed a `Coordinates` back into JSON (the `metadata.coordinates` echo). -/
def coordsToJson (c : Coordinates) : JValue :=
  .obj ((match c.lat? with | some q => [("lat", JValue.num q)] | none => []) ++
        (match c.lng? with | some q => [("lng", JValue.num q)] | none => []))

/-- `generate_demo_analysis` from the source.  `coordinates.get('lat', 0)` /
`.get('lng', 0)` become `getD 0`; the shared numpy RNG is modelled by giving
each generator a disjoint slice of the draw stream (`Gen.shift`); `ts` is
`datetime.now().isoformat()`. -/
def generate_demo_analysis (query : String) (satellite_data : JValue) (coordinates : Coordinates)
    (analysis_type : JValue) (g : Gen) (ts : String) : JValue :=
  let lat := coordinates.lat?.getD 0
  let lng := coordinates.lng?.getD 0
  .obj [("success", .bool true),
        ("model", .str "TerraMind-1.0-large"),
        ("mode", .str "demo"),
        ("analysis", .obj
          [("land_use_classification",
            simulate_land_use_classification lat lng analysis_type (g.shift 0)),
           ("vegetation_health",
            simulate_vegetation_health_analysis satellite_data analysis_type (g.shift 10)),
           ("change_detection", simulate_change_detection_analysis lat lng (g.shift 20)),
           ("environmental_assessment",
            simulate_environmental_assessment query analysis_type (g.shift 30)),
           ("multimodal_confidence", .num (roundTo 3 (uniform g 40 0.75 0.95))),
           ("geospatial_insights", .arr
             ((generate_geospatial_insights query analysis_type).map .str)),
           ("risk_factors", assess_environmental_risks lat lng analysis_type)]),
        ("metadata", .obj
          [("timestamp", .str ts),
           ("coordinates", coordsToJson coordinates),
           ("analysis_type", analysis_type),
           ("modalities_processed", .arr
             [.str "optical", .str "sar", .str "climate", .str "text"]),
           ("processing_time", .num (roundTo 2 (uniform g 41 1.2 3.5)))])]

/-- The fields of `TerraMindProcessor` that outlive `__init__`. -/
structure Processor where
  model_name : String
  model_loaded : Bool
  demo_mode : Bool

/-- `TerraMindProcessor.__init__`: `demoEnv` is whether
`TERRAMIND_DEMO_MODE` reads as true, `loadOk` whether the model load
succeeds; a failed load flips `demo_mode` back on. -/
def Processor.init (demoEnv loadOk : Bool) : Processor :=
  if demoEnv then
    ⟨"ibm-esa-geospatial/TerraMind-1.0-large", false, true⟩
  else if loadOk then
    ⟨"ibm-esa-geospatial/TerraMind-1.0-large", true, false⟩
  else
    ⟨"ibm-esa-geospatial/TerraMind-1.0-large", false, true⟩

/-- The type of the real-inference path `run_terramind_analysis`: it calls
the external torch / transformers model, so it is a parameter here; a raised
exception is `Except.error`. -/
def RunReal : Type :=
  String → JValue → Coordinates → JValue → Except String JValue

/-- `analyze_geospatial_data` from the source, embedded as a state
transformer on the processor (the method assigns no field, so the returned
state is the input state).  The `try` / `except` catch-all falls back to
`generate_demo_analysis` on the same arguments. -/
def analyze_geospatial_data (p : Processor) (rr : RunReal) (query : String)
    (satellite_data : JValue) (coordinates : Coordinates) (analysis_type : JValue)
    (g : Gen) (ts : String) : JValue × Processor :=
  if p.demo_mode || !p.model_loaded then
    (generate_demo_analysis query satellite_data coordinates analysis_type g ts, p)
  else
    match rr query satellite_data coordinates analysis_type with
    | .ok v => (v, p)
    | .error _ =>
      (generate_demo_analysis query satellite_data coordinates analysis_type g ts, p)

/-- Python `data.get(k, dflt)`: raises `AttributeError` on non-dicts. -/
def dictGet (data : JValue) (k : String) (dflt : JValue) : Except String JValue :=
  match data with
  | .obj fields => .ok ((List.lookup k fields).getD dflt)
  | _ => .error "AttributeError: get"

/-- The extracted `query` must be a string (it is sliced and lowercased). -/
def asJString : JValue → Except String String
  | .str s => .ok s
  | _ => .error "TypeError: expected str"

/-- A present `lat` / `lng` entry must be numeric (it enters subtraction). -/
def numField : Option JValue → Except String (Option ℚ)
  | none => .ok none
  | some (.num q) => .ok (some q)
  | some _ => .error "TypeError: unsupported operand type"

/-- Read the request's `coordinates` value into `Coordinates`. -/
def toCoordinates (v : JValue) : Except String Coordinates :=
  match v with
  | .obj fields => do
    let la ← numField (List.lookup "lat" fields)
    let ln ← numField (List.lookup "lng" fields)
    pure ⟨la, ln⟩
  | _ => .error "AttributeError: get"

/-- Extraction of the four request fields with their defaults, as in the
`/analyze` handler; a type mismatch that would raise somewhere in the
Python request handling surfaces here as `Except.error`. -/
def extractRequest (data : JValue) :
    Except String (String × JValue × Coordinates × JValue) := do
  let q ← dictGet data "query" (.str "")
  let sat ← dictGet data "satellite_data" (.obj [])
  let coordsJ ← dictGet data "coordinates" (.obj [])
  let t ← dictGet data "analysis_type" (.str "general")
  let query ← asJString q
  let coords ← toCoordinates coordsJ
  pure (query, sat, coords, t)

/-- The 400 body of the `/analyze` handler. -/
def noDataBody : JValue := .obj [("error", .str "No data provided")]

/-- The 500 body of the `/analyze` handler's catch-all. -/
def failBody (msg : String) : JValue :=
  .obj [("error", .str "Analysis failed"),
        ("message", .str msg),
        ("fallback", .bool true)]

/-- The `/analyze` endpoint: `getJson` is the outcome of
`request.get_json()` (`Except.error` if it raises, `none` if it returns
`None`); the result is `(status code, body)`. -/
def analyze_geospatial (p : Processor) (rr : RunReal) (g : Gen) (ts : String)
    (getJson : Except String (Option JValue)) : ℕ × JValue :=
  match getJson with
  | .error e => (500, failBody e)
  | .ok none => (400, noDataBody)
  | .ok (some data) =>
    if data.isTruthy then
      match extractRequest data with
      | .error e => (500, failBody e)
      | .ok (query, sat, coords, t) =>
        (200, (analyze_geospatial_data p rr query sat coords t g ts).1)
    else (400, noDataBody)

/-! ### Helper lemmas -/

lemma sqrt_mul_le_iff (d r : ℝ) (hr : 0 ≤ r) :
    Real.sqrt d * 111 ≤ r ↔ d * 111 ^ 2 ≤ r ^ 2 := by
  rw [← le_div_iff₀ (by norm_num : (0:ℝ) < 111),
    Real.sqrt_le_left (div_nonneg hr (by norm_num)), div_pow,
    le_div_iff₀ (by positivity : (0:ℝ) < 111 ^ 2)]

lemma withinRadiusKm_iff_sqrt (lat lng clat clng radius : ℚ) (hr : 0 ≤ radius) :
    withinRadiusKm lat lng clat clng radius = true ↔
      Real.sqrt (((lat : ℝ) - clat) ^ 2 + ((lng : ℝ) - clng) ^ 2) * 111 ≤ (radius : ℝ) := by
  rw [withinRadiusKm, decide_eq_true_iff,
    sqrt_mul_le_iff _ _ (by exact_mod_cast hr)]
  constructor
  · intro h
    exact_mod_cast h
  · intro h
    exact_mod_cast h

lemma getPath_singleton (v : JValue) (k : String) : v.getPath [k] = v.getField k := by
  rw [JValue.getPath]
  cases v.getField k
  · rfl
  · rfl

lemma simulate_land_use_primary_class (lat lng : ℚ) (t : JValue) (g : Gen) :
    (simulate_land_use_classification lat lng t g).getField "primary_class" =
      some (.str (if is_urban_area lat lng then "urban"
                  else if is_coastal_area lat lng then "coastal_mixed"
                  else "agricultural")) := by
  rw [simulate_land_use_classification]
  split_ifs
  · rfl
  · rfl
  · rfl

/-- A discriminator separating the three risk lists: the first risk's
first field value (its `type` string). -/
def firstType : JValue → Option JValue
  | .arr (.obj ((_, v) :: _) :: _) => some v
  | _ => none

lemma some_str_ne (a b : String) (h : a ≠ b) :
    some (JValue.str a) ≠ some (JValue.str b) := by
  intro he
  simp only [Option.some.injEq, JValue.str.injEq] at he
  exact h he

lemma urban_risks_ne_coastal : urban_risks ≠ coastal_risks := by
  intro h
  have h2 := congrArg firstType h
  simp only [firstType, urban_risks, coastal_risks,
    Option.some.injEq, JValue.str.injEq] at h2
  exact absurd h2 (by decide)

lemma urban_risks_ne_rural : urban_risks ≠ rural_risks := by
  intro h
  have h2 := congrArg firstType h
  simp only [firstType, urban_risks, rural_risks,
    Option.some.injEq, JValue.str.injEq] at h2
  exact absurd h2 (by decide)

lemma coastal_risks_ne_rural : coastal_risks ≠ rural_risks := by
  intro h
  have h2 := congrArg firstType h
  simp only [firstType, coastal_risks, rural_risks,
    Option.some.injEq, JValue.str.injEq] at h2
  exact absurd h2 (by decide)

/-! ### Claim theorems -/

/-- C2: `is_urban_area` holds exactly when some hardcoded urban center
`(clat, clng, 50)` satisfies `sqrt((lat-clat)^2 + (lng-clng)^2) * 111 ≤ 50`,
and `is_coastal_area` exactly when one of the three coastal centers with
radii 30 / 20 / 15 satisfies the analogous condition. -/
theorem classification_is_distance_thresholding (lat lng : ℚ) :
    (is_urban_area lat lng = true ↔
      ∃ c ∈ urban_centers,
        Real.sqrt (((lat : ℝ) - c.1) ^ 2 + ((lng : ℝ) - c.2.1) ^ 2) * 111 ≤ (c.2.2 : ℝ)) ∧
    (is_coastal_area lat lng = true ↔
      ∃ c ∈ coastal_regions,
        Real.sqrt (((lat : ℝ) - c.1) ^ 2 + ((lng : ℝ) - c.2.1) ^ 2) * 111 ≤ (c.2.2 : ℝ)) := by
  constructor
  · rw [is_urban_area, List.any_eq_true]
    constructor
    · rintro ⟨c, hc, hw⟩
      exact ⟨c, hc, by
        fin_cases hc <;>
          exact (withinRadiusKm_iff_sqrt _ _ _ _ _ (by norm_num)).1 hw⟩
    · rintro ⟨c, hc, hs⟩
      exact ⟨c, hc, by
        fin_cases hc <;>
          exact (withinRadiusKm_iff_sqrt _ _ _ _ _ (by norm_num)).2 hs⟩
  · rw [is_coastal_area, List.any_eq_true]
    constructor
    · rintro ⟨c, hc, hw⟩
      exact ⟨c, hc, by
        fin_cases hc <;>
          exact (withinRadiusKm_iff_sqrt _ _ _ _ _ (by norm_num)).1 hw⟩
    · rintro ⟨c, hc, hs⟩
      exact ⟨c, hc, by
        fin_cases hc <;>
          exact (withinRadiusKm_iff_sqrt _ _ _ _ _ (by norm_num)).2 hs⟩

/-- C1: the urban/coastal/rural branch is deterministic in the coordinates:
`is_urban_area` / `is_coastal_area` are pure functions of `(lat, lng)`, and
two demo runs with the same coordinates but different random streams and
timestamps select the same `primary_class`. -/
theorem branch_deterministic_across_runs (q : String) (sat : JValue) (c : Coordinates)
    (t : JValue) (g₁ g₂ : Gen) (ts₁ ts₂ : String) :
    is_urban_area (c.lat?.getD 0) (c.lng?.getD 0) =
      is_urban_area (c.lat?.getD 0) (c.lng?.getD 0) ∧
    is_coastal_area (c.lat?.getD 0) (c.lng?.getD 0) =
      is_coastal_area (c.lat?.getD 0) (c.lng?.getD 0) ∧
    (generate_demo_analysis q sat c t g₁ ts₁).getPath
        ["analysis", "land_use_classification", "primary_class"] =
      (generate_demo_analysis q sat c t g₂ ts₂).getPath
        ["analysis", "land_use_classification", "primary_class"] := by
  refine ⟨rfl, rfl, ?_⟩
  have e : ∀ (g : Gen) (ts : String),
      (generate_demo_analysis q sat c t g ts).getPath
          ["analysis", "land_use_classification", "primary_class"] =
        (simulate_land_use_classification (c.lat?.getD 0) (c.lng?.getD 0) t
            (g.shift 0)).getPath ["primary_class"] := fun g ts => rfl
  rw [e g₁ ts₁, e g₂ ts₂, getPath_singleton, getPath_singleton,
    simulate_land_use_primary_class, simulate_land_use_primary_class]

/-- C9: the land-use branch and the risk list always agree, urban taking
precedence over coastal; Chennai lies inside both an urban and a coastal
radius and is classified urban. -/
theorem land_use_and_risks_agree (lat lng : ℚ) (t : JValue) (g : Gen) :
    ((simulate_land_use_classification lat lng t g).getField "primary_class" =
        some (.str "urban") ↔ assess_environmental_risks lat lng t = urban_risks) ∧
    ((simulate_land_use_classification lat lng t g).getField "primary_class" =
        some (.str "coastal_mixed") ↔ assess_environmental_risks lat lng t = coastal_risks) ∧
    ((simulate_land_use_classification lat lng t g).getField "primary_class" =
        some (.str "agricultural") ↔ assess_environmental_risks lat lng t = rural_risks) ∧
    is_urban_area 13.0827 80.2707 = true ∧
    is_coastal_area 13.0827 80.2707 = true ∧
    (simulate_land_use_classification 13.0827 80.2707 t g).getField "primary_class" =
      some (.str "urban") := by
  have hch_u : is_urban_area 13.0827 80.2707 = true := by
    norm_num [is_urban_area, urban_centers, withinRadiusKm]
  have hch_c : is_coastal_area 13.0827 80.2707 = true := by
    norm_num [is_coastal_area, coastal_regions, withinRadiusKm]
  refine ⟨?_, ?_, ?_, hch_u, hch_c, ?_⟩
  · rw [simulate_land_use_primary_class, assess_environmental_risks]
    split_ifs with h1 h2
    · exact iff_of_true rfl rfl
    · exact iff_of_false (some_str_ne _ _ (by decide))
        (fun h => urban_risks_ne_coastal h.symm)
    · exact iff_of_false (some_str_ne _ _ (by decide))
        (fun h => urban_risks_ne_rural h.symm)
  · rw [simulate_land_use_primary_class, assess_environmental_risks]
    split_ifs with h1 h2
    · exact iff_of_false (some_str_ne _ _ (by decide))
        (fun h => urban_risks_ne_coastal h)
    · exact iff_of_true rfl rfl
    · exact iff_of_false (some_str_ne _ _ (by decide))
        (fun h => coastal_risks_ne_rural h.symm)
  · rw [simulate_land_use_primary_class, assess_environmental_risks]
    split_ifs with h1 h2
    · exact iff_of_false (some_str_ne _ _ (by decide))
        (fun h => urban_risks_ne_rural h)
    · exact iff_of_false (some_str_ne _ _ (by decide))
        (fun h => coastal_risks_ne_rural h)
    · exact iff_of_true rfl rfl
  · rw [simulate_land_use_primary_class, hch_u]
    rfl

/-- C5: the demo analysis always carries the top-level fields `success`,
`model`, `mode`, `analysis`, `metadata`, and its `analysis` object carries
`land_use_classification`, `vegetation_health`, `change_detection`,
`environmental_assessment`, `multimodal_confidence`, `geospatial_insights`
and `risk_factors`. -/
theorem demo_analysis_schema (q : String) (sat : JValue) (c : Coordinates)
    (t : JValue) (g : Gen) (ts : String) :
    ((generate_demo_analysis q sat c t g ts).getField "success").isSome = true ∧
    ((generate_demo_analysis q sat c t g ts).getField "model").isSome = true ∧
    ((generate_demo_analysis q sat c t g ts).getField "mode").isSome = true ∧
    ((generate_demo_analysis q sat c t g ts).getField "analysis").isSome = true ∧
    ((generate_demo_analysis q sat c t g ts).getField "metadata").isSome = true ∧
    ((generate_demo_analysis q sat c t g ts).getPath
        ["analysis", "land_use_classification"]).isSome = true ∧
    ((generate_demo_analysis q sat c t g ts).getPath
        ["analysis", "vegetation_health"]).isSome = true ∧
    ((generate_demo_analysis q sat c t g ts).getPath
        ["analysis", "change_detection"]).isSome = true ∧
    ((generate_demo_analysis q sat c t g ts).getPath
        ["analysis", "environmental_assessment"]).isSome = true ∧
    ((generate_demo_analysis q sat c t g ts).getPath
        ["analysis", "multimodal_confidence"]).isSome = true ∧
    ((generate_demo_analysis q sat c t g ts).getPath
        ["analysis", "geospatial_insights"]).isSome = true ∧
    ((generate_demo_analysis q sat c t g ts).getPath
        ["analysis", "risk_factors"]).isSome = true :=
  ⟨rfl, rfl, rfl, rfl, rfl, rfl, rfl, rfl, rfl, rfl, rfl, rfl⟩

/-- C6: with the demo flag set (or the model not loaded) the analysis
entry point returns exactly the demo generator's output, whose `success`
field is `true` and `mode` field is `"demo"`; the result does not depend
on the real-inference function at all in that case. -/
theorem demo_mode_branch (p : Processor) (rr rr' : RunReal) (q : String)
    (sat : JValue) (c : Coordinates) (t : JValue) (g : Gen) (ts : String)
    (h : p.demo_mode = true ∨ p.model_loaded = false) :
    (analyze_geospatial_data p rr q sat c t g ts).1 =
      generate_demo_analysis q sat c t g ts ∧
    analyze_geospatial_data p rr q sat c t g ts =
      analyze_geospatial_data p rr' q sat c t g ts ∧
    (generate_demo_analysis q sat c t g ts).getField "success" = some (.bool true) ∧
    (generate_demo_analysis q sat c t g ts).getField "mode" = some (.str "demo") := by
  have hb : (p.demo_mode || !p.model_loaded) = true := by
    rcases h with h | h <;> simp [h]
  rw [analyze_geospatial_data, analyze_geospatial_data, hb]
  exact ⟨rfl, rfl, rfl, rfl⟩

/-- Witness for C6 at a concrete demo-mode processor. -/
theorem demo_mode_branch_witness :
    ((Processor.init true true).demo_mode = true ∨
      (Processor.init true true).model_loaded = false) ∧
    (analyze_geospatial_data (Processor.init true true)
        (fun _ _ _ _ => .error "down") "q" (.obj []) ⟨none, none⟩ (.str "general")
        ⟨fun _ => 0, fun _ => 0⟩ "ts").1 =
      generate_demo_analysis "q" (.obj []) ⟨none, none⟩ (.str "general")
        ⟨fun _ => 0, fun _ => 0⟩ "ts" :=
  ⟨Or.inl rfl,
    (demo_mode_branch (Processor.init true true) (fun _ _ _ _ => .error "down")
      (fun _ _ _ _ => .error "down") "q" (.obj []) ⟨none, none⟩ (.str "general")
      ⟨fun _ => 0, fun _ => 0⟩ "ts" (Or.inl rfl)).1⟩

/-- C3: in production mode (demo off, model loaded), an exception raised
by the real-inference path is caught and the demo generator's output on
the same arguments is returned instead. -/
theorem real_failure_falls_back_to_demo (p : Processor) (rr : RunReal)
    (q : String) (sat : JValue) (c : Coordinates) (t : JValue) (g : Gen)
    (ts : String) (e : String) (hd : p.demo_mode = false)
    (hm : p.model_loaded = true) (hr : rr q sat c t = .error e) :
    (analyze_geospatial_data p rr q sat c t g ts).1 =
      generate_demo_analysis q sat c t g ts := by
  rw [analyze_geospatial_data, hd, hm, hr]
  rfl

/-- Witness for C3 at a concrete production-mode processor whose
real-inference function raises. -/
theorem real_failure_falls_back_to_demo_witness :
    (Processor.init false true).demo_mode = false ∧
    (Processor.init false true).model_loaded = true ∧
    (analyze_geospatial_data (Processor.init false true)
        (fun _ _ _ _ => .error "model crashed") "q" (.obj []) ⟨none, none⟩
        (.str "general") ⟨fun _ => 0, fun _ => 0⟩ "ts").1 =
      generate_demo_analysis "q" (.obj []) ⟨none, none⟩ (.str "general")
        ⟨fun _ => 0, fun _ => 0⟩ "ts" :=
  ⟨rfl, rfl,
    real_failure_falls_back_to_demo (Processor.init false true)
      (fun _ _ _ _ => .error "model crashed") "q" (.obj []) ⟨none, none⟩
      (.str "general") ⟨fun _ => 0, fun _ => 0⟩ "ts" "model crashed" rfl rfl rfl⟩

/-- C7: a request never mutates the shared processor: the analysis entry
point returns the processor state it was given, so `model_name`,
`model_loaded` and `demo_mode` are unchanged by every call; they are set
only by `Processor.init`, which always fixes the model name. -/
theorem processor_state_unchanged (p : Processor) (rr : RunReal) (q : String)
    (sat : JValue) (c : Coordinates) (t : JValue) (g : Gen) (ts : String) :
    (analyze_geospatial_data p rr q sat c t g ts).2 = p ∧
    (analyze_geospatial_data p rr q sat c t g ts).2.model_name = p.model_name ∧
    (analyze_geospatial_data p rr q sat c t g ts).2.model_loaded = p.model_loaded ∧
    (analyze_geospatial_data p rr q sat c t g ts).2.demo_mode = p.demo_mode ∧
    ∀ de lo : Bool,
      (Processor.init de lo).model_name = "ibm-esa-geospatial/TerraMind-1.0-large" := by
  have h2 : (analyze_geospatial_data p rr q sat c t g ts).2 = p := by
    rw [analyze_geospatial_data]
    by_cases hb : (p.demo_mode || !p.model_loaded) = true
    · simp [hb]
    · simp only [hb]
      cases hrr : rr q sat c t <;> simp
  refine ⟨h2, by rw [h2], by rw [h2], by rw [h2], ?_⟩
  intro de lo
  cases de <;> cases lo <;> rfl

/-- C4: a request whose parsed JSON body is absent or falsy gets a 400
with body `{"error": "No data provided"}`; a request whose handling
raises gets a 500 whose body carries `"error": "Analysis failed"` and
`"fallback": true`. -/
theorem malformed_requests_generic_400_500 (p : Processor) (rr : RunReal)
    (g : Gen) (ts : String) :
    analyze_geospatial p rr g ts (.ok none) = (400, noDataBody) ∧
    (∀ d : JValue, d.isTruthy = false →
      analyze_geospatial p rr g ts (.ok (some d)) = (400, noDataBody)) ∧
    (∀ e : String,
      (analyze_geospatial p rr g ts (.error e)).1 = 500 ∧
      (analyze_geospatial p rr g ts (.error e)).2.getField "error" =
        some (.str "Analysis failed") ∧
      (analyze_geospatial p rr g ts (.error e)).2.getField "fallback" =
        some (.bool true)) ∧
    (∀ (d : JValue) (e : String), d.isTruthy = true → extractRequest d = .error e →
      (analyze_geospatial p rr g ts (.ok (some d))).1 = 500 ∧
      (analyze_geospatial p rr g ts (.ok (some d))).2.getField "error" =
        some (.str "Analysis failed") ∧
      (analyze_geospatial p rr g ts (.ok (some d))).2.getField "fallback" =
        some (.bool true)) := by
  refine ⟨rfl, ?_, ?_, ?_⟩
  · intro d hd
    rw [analyze_geospatial, hd]
    rfl
  · intro e
    exact ⟨rfl, rfl, rfl⟩
  · intro d e hd he
    rw [analyze_geospatial, hd, he]
    exact ⟨rfl, rfl, rfl⟩

/-- Witness for C4: the empty-object body is falsy and yields the 400; a
body whose `query` is a number makes extraction raise and yields the 500. -/
theorem malformed_requests_generic_400_500_witness :
    (JValue.obj []).isTruthy = false ∧
    (JValue.obj [("query", .num 3)]).isTruthy = true ∧
    extractRequest (.obj [("query", .num 3)]) = .error "TypeError: expected str" ∧
    analyze_geospatial (Processor.init true true) (fun _ _ _ _ => .error "down")
        ⟨fun _ => 0, fun _ => 0⟩ "ts" (.ok (some (.obj []))) = (400, noDataBody) ∧
    (analyze_geospatial (Processor.init true true) (fun _ _ _ _ => .error "down")
        ⟨fun _ => 0, fun _ => 0⟩ "ts" (.error "bad json")).1 = 500 ∧
    (analyze_geospatial (Processor.init true true) (fun _ _ _ _ => .error "down")
        ⟨fun _ => 0, fun _ => 0⟩ "ts"
        (.ok (some (.obj [("query", .num 3)])))).1 = 500 :=
  ⟨rfl, rfl, rfl,
    (malformed_requests_generic_400_500 (Processor.init true true)
      (fun _ _ _ _ => .error "down") ⟨fun _ => 0, fun _ => 0⟩ "ts").2.1
      (.obj []) rfl,
    ((malformed_requests_generic_400_500 (Processor.init true true)
      (fun _ _ _ _ => .error "down") ⟨fun _ => 0, fun _ => 0⟩ "ts").2.2.1
      "bad json").1,
    ((malformed_requests_generic_400_500 (Processor.init true true)
      (fun _ _ _ _ => .error "down") ⟨fun _ => 0, fun _ => 0⟩ "ts").2.2.2
      (.obj [("query", .num 3)]) "TypeError: expected str" rfl rfl).1⟩

lemma withinRadiusKm_false_of_far_lat (lat lng clat clng radius : ℚ)
    (h : radius ^ 2 < (lat - clat) ^ 2 * 111 ^ 2) :
    withinRadiusKm lat lng clat clng radius = false := by
  rw [withinRadiusKm, decide_eq_false_iff_not]
  intro hle
  nlinarith [sq_nonneg (lng - clng)]

lemma withinRadiusKm_false_of_far_lng (lat lng clat clng radius : ℚ)
    (h : radius ^ 2 < (lng - clng) ^ 2 * 111 ^ 2) :
    withinRadiusKm lat lng clat clng radius = false := by
  rw [withinRadiusKm, decide_eq_false_iff_not]
  intro hle
  nlinarith [sq_nonneg (lat - clat)]

lemma is_urban_area_lat0 (lng : ℚ) : is_urban_area 0 lng = false := by
  rw [is_urban_area]
  simp only [urban_centers, List.any_cons, List.any_nil, Bool.or_false]
  rw [withinRadiusKm_false_of_far_lat 0 lng 13.0827 80.2707 50 (by norm_num),
    withinRadiusKm_false_of_far_lat 0 lng 12.9716 77.5946 50 (by norm_num),
    withinRadiusKm_false_of_far_lat 0 lng 19.0760 72.8777 50 (by norm_num),
    withinRadiusKm_false_of_far_lat 0 lng 28.7041 77.1025 50 (by norm_num)]
  rfl

lemma is_coastal_area_lat0 (lng : ℚ) : is_coastal_area 0 lng = false := by
  rw [is_coastal_area]
  simp only [coastal_regions, List.any_cons, List.any_nil, Bool.or_false]
  rw [withinRadiusKm_false_of_far_lat 0 lng 13.0827 80.2707 30 (by norm_num),
    withinRadiusKm_false_of_far_lat 0 lng 19.0760 72.8777 20 (by norm_num),
    withinRadiusKm_false_of_far_lat 0 lng 11.9416 79.8083 15 (by norm_num)]
  rfl

lemma is_urban_area_lng0 (lat : ℚ) : is_urban_area lat 0 = false := by
  rw [is_urban_area]
  simp only [urban_centers, List.any_cons, List.any_nil, Bool.or_false]
  rw [withinRadiusKm_false_of_far_lng lat 0 13.0827 80.2707 50 (by norm_num),
    withinRadiusKm_false_of_far_lng lat 0 12.9716 77.5946 50 (by norm_num),
    withinRadiusKm_false_of_far_lng lat 0 19.0760 72.8777 50 (by norm_num),
    withinRadiusKm_false_of_far_lng lat 0 28.7041 77.1025 50 (by norm_num)]
  rfl

lemma is_coastal_area_lng0 (lat : ℚ) : is_coastal_area lat 0 = false := by
  rw [is_coastal_area]
  simp only [coastal_regions, List.any_cons, List.any_nil, Bool.or_false]
  rw [withinRadiusKm_false_of_far_lng lat 0 13.0827 80.2707 30 (by norm_num),
    withinRadiusKm_false_of_far_lng lat 0 19.0760 72.8777 20 (by norm_num),
    withinRadiusKm_false_of_far_lng lat 0 11.9416 79.8083 15 (by norm_num)]
  rfl

/-- C8: a request whose coordinates lack `lat` or `lng` defaults the
missing value to 0, and any such point is outside every urban and coastal
radius, so the classification is `agricultural` and the risk list is the
rural one. -/
theorem missing_coordinates_rural (q : String) (sat : JValue) (c : Coordinates)
    (t : JValue) (g : Gen) (ts : String) (h : c.lat? = none ∨ c.lng? = none) :
    (generate_demo_analysis q sat c t g ts).getPath
        ["analysis", "land_use_classification", "primary_class"] =
      some (.str "agricultural") ∧
    (generate_demo_analysis q sat c t g ts).getPath ["analysis", "risk_factors"] =
      some rural_risks := by
  have hu : is_urban_area (c.lat?.getD 0) (c.lng?.getD 0) = false := by
    rcases h with h | h
    · rw [h]
      exact is_urban_area_lat0 _
    · rw [h]
      exact is_urban_area_lng0 _
  have hc : is_coastal_area (c.lat?.getD 0) (c.lng?.getD 0) = false := by
    rcases h with h | h
    · rw [h]
      exact is_coastal_area_lat0 _
    · rw [h]
      exact is_coastal_area_lng0 _
  have e1 : (generate_demo_analysis q sat c t g ts).getPath
      ["analysis", "land_use_classification", "primary_class"] =
      (simulate_land_use_classification (c.lat?.getD 0) (c.lng?.getD 0) t
        (g.shift 0)).getPath ["primary_class"] := rfl
  have e2 : (generate_demo_analysis q sat c t g ts).getPath
      ["analysis", "risk_factors"] =
      some (assess_environmental_risks (c.lat?.getD 0) (c.lng?.getD 0) t) := rfl
  constructor
  · rw [e1, getPath_singleton, simulate_land_use_primary_class, hu, hc]
    rfl
  · rw [e2, assess_environmental_risks, hu, hc]
    rfl

/-- Witness for C8 at coordinates missing both entries. -/
theorem missing_coordinates_rural_witness :
    (Coordinates.mk none none).lat? = none ∧
    (generate_demo_analysis "q" (.obj []) ⟨none, none⟩ (.str "general")
        ⟨fun _ => 0, fun _ => 0⟩ "ts").getPath
        ["analysis", "land_use_classification", "primary_class"] =
      some (.str "agricultural") :=
  ⟨rfl,
    (missing_coordinates_rural "q" (.obj []) ⟨none, none⟩ (.str "general")
      ⟨fun _ => 0, fun _ => 0⟩ "ts" (Or.inl rfl)).1⟩

/-- C10 counterexample: numpy's `uniform(0.3, 0.8)` includes its lower
bound, and the stream drawing the unit value 0 (legal: `0 ≤ 0 < 1`) gives
`base_ndvi = 0.3` exactly, for which `categorize_vegetation_health`
returns `"poor"` (its `> 0.3` threshold is strict) — so the claimed
"never poor" invariant fails at the boundary. -/
theorem vegetation_health_counterexample :
    (0:ℚ) ≤ 0 ∧ (0:ℚ) < 1 ∧
    uniform ⟨fun _ => 0, fun _ => 0⟩ 0 0.3 0.8 = 0.3 ∧
    (simulate_vegetation_health_analysis (.obj []) (.str "general")
        ⟨fun _ => 0, fun _ => 0⟩).getField "health_category" = some (.str "poor") ∧
    ¬((simulate_vegetation_health_analysis (.obj []) (.str "general")
          ⟨fun _ => 0, fun _ => 0⟩).getField "health_category" =
            some (.str "moderate") ∨
      (simulate_vegetation_health_analysis (.obj []) (.str "general")
          ⟨fun _ => 0, fun _ => 0⟩).getField "health_category" =
            some (.str "good") ∨
      (simulate_vegetation_health_analysis (.obj []) (.str "general")
          ⟨fun _ => 0, fun _ => 0⟩).getField "health_category" =
            some (.str "excellent")) := by
  have hu : uniform ⟨fun _ => 0, fun _ => 0⟩ 0 0.3 0.8 = 0.3 := by
    rw [uniform]
    norm_num
  have hcat : categorize_vegetation_health
      (uniform ⟨fun _ => 0, fun _ => 0⟩ 0 0.3 0.8) = "poor" := by
    rw [hu, categorize_vegetation_health]
    norm_num
  have hf : (simulate_vegetation_health_analysis (.obj []) (.str "general")
      ⟨fun _ => 0, fun _ => 0⟩).getField "health_category" =
      some (.str (categorize_vegetation_health
        (uniform ⟨fun _ => 0, fun _ => 0⟩ 0 0.3 0.8))) := rfl
  rw [hf, hcat]
  refine ⟨le_refl 0, by norm_num, hu, rfl, ?_⟩
  rintro (h | h | h) <;> exact some_str_ne _ _ (by decide) h

/-- C10 (amended): whenever the unit draw is strictly positive — i.e.
`base_ndvi` lies in the open-above part `(0.3, 0.8)` of numpy's half-open
range rather than at its included lower endpoint — the health category is
`moderate`, `good` or `excellent`; unconditionally, `drought_stress` is
`"low"` exactly when `base_ndvi > 0.6`, and the recommendation list always
has exactly three entries. -/
theorem vegetation_health_amended (sat t : JValue) (g : Gen)
    (h0 : 0 < g.unif 0) (h1 : g.unif 0 < 1) :
    ((simulate_vegetation_health_analysis sat t g).getField "health_category" =
        some (.str "moderate") ∨
      (simulate_vegetation_health_analysis sat t g).getField "health_category" =
        some (.str "good") ∨
      (simulate_vegetation_health_analysis sat t g).getField "health_category" =
        some (.str "excellent")) ∧
    ((simulate_vegetation_health_analysis sat t g).getPath
        ["stress_indicators", "drought_stress"] = some (.str "low") ↔
      uniform g 0 0.3 0.8 > 0.6) ∧
    (generate_vegetation_recommendations (uniform g 0 0.3 0.8) t).length = 3 := by
  have hgt : (0.3:ℚ) < uniform g 0 0.3 0.8 := by
    rw [uniform]
    nlinarith
  have hf : (simulate_vegetation_health_analysis sat t g).getField
      "health_category" =
      some (.str (categorize_vegetation_health (uniform g 0 0.3 0.8))) := rfl
  have hd : (simulate_vegetation_health_analysis sat t g).getPath
      ["stress_indicators", "drought_stress"] =
      some (.str (if uniform g 0 0.3 0.8 > 0.6 then "low" else "moderate")) := rfl
  refine ⟨?_, ?_, ?_⟩
  · rw [hf, categorize_vegetation_health]
    split_ifs with hA hB
    · right; right; rfl
    · right; left; rfl
    · left; rfl
  · rw [hd]
    split_ifs with h
    · exact iff_of_true rfl h
    · exact iff_of_false (some_str_ne _ _ (by decide)) h
  · rw [generate_vegetation_recommendations]
    split_ifs <;> rfl

/-- Witness for C10's amended theorem at the stream drawing 1/2. -/
theorem vegetation_health_amended_witness :
    (0:ℚ) < (Gen.mk (fun _ => 1/2) (fun _ => 0)).unif 0 ∧
    (Gen.mk (fun _ => 1/2) (fun _ => 0)).unif 0 < 1 ∧
    ((simulate_vegetation_health_analysis (.obj []) (.str "general")
        ⟨fun _ => 1/2, fun _ => 0⟩).getField "health_category" =
          some (.str "moderate") ∨
      (simulate_vegetation_health_analysis (.obj []) (.str "general")
        ⟨fun _ => 1/2, fun _ => 0⟩).getField "health_category" =
          some (.str "good") ∨
      (simulate_vegetation_health_analysis (.obj []) (.str "general")
        ⟨fun _ => 1/2, fun _ => 0⟩).getField "health_category" =
          some (.str "excellent")) :=
  ⟨by norm_num, by norm_num,
    (vegetation_health_amended (.obj []) (.str "general")
      ⟨fun _ => 1/2, fun _ => 0⟩ (by norm_num) (by norm_num)).1⟩

end Bunker
